import Mathlib

/-!
# playit: daemon lifecycle, playback sequencing and playlist removal

A shallow embedding of the command handlers of `cmd/run.go`, `cmd/stop.go` and
`cmd/remove.go`, and of the filter `isMusicFile` of `cmd/add.go`.  Persisted files are an explicit `World` threaded through every
handler; every call that leaves the program (console output, process start,
signals, decoders, the speaker) is appended to a trace of `Effect`s; every
library call whose error the source inspects has its outcome supplied by `Env`.
-/

namespace Playit

/-! ## Library functions the handlers call -/

/-- Backwards scan of `filepath.Ext`: the first argument is the part of the path not
yet visited, last byte first; the second is the suffix already walked over.  The scan
stops with the empty extension at a path separator and with the suffix at a dot. -/
def extScan : List Char → List Char → List Char
  | [], _ => []
  | c :: rest, suffix =>
    if c = '/' then []
    else if c = '.' then c :: suffix
    else extScan rest (c :: suffix)

/-- The function `filepath.Ext`: the suffix beginning at the final dot of the final
path element, empty when that element has no dot. -/
def filepathExt (path : String) : String :=
  String.mk (extScan path.data.reverse [])

/-- Digit loop of `strconv.Atoi`: every byte must be a decimal digit. -/
def parseDigits : List Char → Nat → Option Nat
  | [], acc => some acc
  | c :: cs, acc =>
    if '0' ≤ c ∧ c ≤ '9' then parseDigits cs (acc * 10 + (c.toNat - '0'.toNat))
    else none

/-- The function `strconv.Atoi` on a 64-bit platform: an optional sign, then at least
one decimal digit, and a value that fits `int`; `none` stands for a non-nil error. -/
def atoi (s : String) : Option Int :=
  let neg : Bool := s.data.head? = some '-'
  let body : List Char :=
    match s.data with
    | [] => []
    | c :: cs => if c = '-' ∨ c = '+' then cs else c :: cs
  if body = [] then none
  else
    match parseDigits body 0 with
    | none => none
    | some un =>
      if neg then (if un ≤ 2 ^ 63 then some (-(un : Int)) else none)
      else (if un < 2 ^ 63 then some (un : Int) else none)

/-- The verb `%d` of `fmt` applied to an `int`. -/
def fmtInt (n : Int) : String :=
  if n < 0 then String.mk ('-' :: Nat.toDigits 10 n.natAbs)
  else String.mk (Nat.toDigits 10 n.toNat)

/-! ## Data model -/

/-- Modelled from the spec: the declaration of the `Playlist` type is not among the
sources; the handlers only use its field `Files`, the ordered list of file names. -/
structure Playlist where
  Files : List String
  deriving DecidableEq, Repr

/-- The persisted state the handlers see from their working directory. -/
structure World where
  /-- Content of `playit.pid` (the DaemonRecord), `none` when the file is absent. -/
  pidFile : Option String
  /-- Content of `playlist.json`, `none` when the file is absent. -/
  playlistFile : Option String
  /-- Whether `os.Stat` finds the given path (the files of the music directory). -/
  fileExists : String → Bool

/-- Outcomes of the calls into the operating system and the libraries.  For a call
whose error the source inspects, `some e` (or `.error e`) is a failure with text `e`. -/
structure Env where
  /-- Failure of `os.ReadFile` on a path that exists. -/
  readErr : String → Option String
  /-- The call `json.Unmarshal(data, &playlist)`. -/
  jsonUnmarshal : String → Except String Playlist
  /-- The call `json.MarshalIndent(playlist, "", "  ")`. -/
  jsonMarshalIndent : Playlist → Except String String
  /-- Failure of `os.WriteFile` on a path. -/
  writeErr : String → Option String
  /-- The call `runCmd.Start()` with the given arguments: the child's process id. -/
  startProcess : List String → Except String Int
  /-- Failure of `os.FindProcess`. -/
  findProcessErr : Int → Option String
  /-- Failure of `process.Signal(syscall.SIGTERM)` for the process with this id. -/
  signalErr : Int → Option String
  /-- Failure of `os.Remove` on a path that exists. -/
  removeErr : String → Option String
  /-- Whether the player deletes the DaemonRecord itself after being signalled and
  before the controller reaches its own `os.Remove`. -/
  recordGoneBeforeRemove : Bool
  /-- Text of the error `strconv.Atoi` returns for an input it rejects. -/
  atoiErrText : String → String
  /-- The function `filepath.Join` on two elements. -/
  filepathJoin : String → String → String
  /-- Failure of `os.Open`. -/
  openErr : String → Option String
  /-- The call `mp3.Decode` on the opened file: the sample rate of the stream. -/
  mp3Decode : String → Except String Nat
  /-- The call `wav.Decode` on the opened file: the sample rate of the stream. -/
  wavDecode : String → Except String Nat
  /-- Result of `speaker.Init`. -/
  speakerInitErr : Option String
  /-- The random source of `rand.Shuffle`: the draw made for bound `n` is
  `randIntn n % n`. -/
  randIntn : Nat → Nat

/-- Calls that leave the program, in the order the handlers make them. -/
inductive Effect where
  /-- One line written to standard output. -/
  | println (text : String)
  /-- The call `exec.Command(os.Args[0], args...).Start()`. -/
  | start (args : List String)
  /-- The call `process.Signal(syscall.SIGTERM)` on the process with this id. -/
  | sigterm (pid : Int)
  /-- The call `speaker.Init` with sample rate and buffer size, and whether it failed. -/
  | speakerInit (sampleRate bufferSize : Nat) (failed : Bool)
  /-- The call `playFile(filePath)`. -/
  | playFile (filePath : String)
  /-- The call `os.Open(filePath)`. -/
  | osOpen (filePath : String)
  /-- The call `mp3.Decode(file)`. -/
  | mp3Decode (filePath : String)
  /-- The call `wav.Decode(file)`. -/
  | wavDecode (filePath : String)
  /-- The call `speaker.Play` on the stream, resampled or not, awaited to its end. -/
  | speakerPlay (filePath : String) (resampled : Bool)
  /-- The deferred `streamer.Close()`. -/
  | streamerClose (filePath : String)
  /-- The deferred `file.Close()`. -/
  | fileClose (filePath : String)
  deriving DecidableEq, Repr

/-- The call `os.ReadFile` on a file with the given content. -/
def readFile (env : Env) (path : String) (content : Option String) : Except String String :=
  match content with
  | none => .error ("open " ++ path ++ ": no such file or directory")
  | some data =>
    match env.readErr path with
    | some e => .error e
    | none => .ok data

/-- The call `os.Remove("playit.pid")`: the world afterwards and the error, if any. -/
def removePidFile (env : Env) (w : World) : World × Option String :=
  match w.pidFile with
  | none => (w, some "remove playit.pid: no such file or directory")
  | some _ =>
    match env.removeErr "playit.pid" with
    | some e => (w, some e)
    | none => ({ w with pidFile := none }, none)

/-! ## `cmd/run.go`: the `run` command -/

/-- Handler `runMusic` of the `run` command, with the package variable `shuffleMode`. -/
def runMusic (env : Env) (shuffleMode : Bool) (w : World) : World × List Effect :=
  if w.pidFile.isSome then
    (w, [.println "Music player is already running!",
         .println "Use 'playit status' to check status or 'playit stop' to stop it."])
  else if w.playlistFile.isNone then
    (w, [.println "No playlist found. Use 'playit add' to add music files first."])
  else
    match readFile env "playlist.json" w.playlistFile with
    | .error e => (w, [.println ("Error reading playlist: " ++ e)])
    | .ok data =>
      match env.jsonUnmarshal data with
      | .error e => (w, [.println ("Error parsing playlist: " ++ e)])
      | .ok playlist =>
        if playlist.Files.length = 0 then
          (w, [.println "Playlist is empty. Use 'playit add' to add music files."])
        else
          let banner : List Effect :=
            [.println "Starting music player in background...",
             .println "Use 'playit status' to check status or 'playit stop' to stop it."]
          let cmdArgs : List String :=
            if shuffleMode then ["run-music", "--shuffle"] else ["run-music"]
          match env.startProcess cmdArgs with
          | .error e =>
            (w, banner ++ [.start cmdArgs, .println ("Error starting music player: " ++ e)])
          | .ok childPID =>
            let tail : List Effect :=
              [.println ("Music player started with PID: " ++ fmtInt childPID),
               .println "Use 'playit status' to check status or 'playit stop' to stop it."]
            match env.writeErr "playit.pid" with
            | some e =>
              (w, banner ++ [.start cmdArgs,
                             .println ("Warning: Could not write PID file: " ++ e)] ++ tail)
            | none =>
              ({ w with pidFile := some (fmtInt childPID) },
               banner ++ [.start cmdArgs] ++ tail)

/-! ## `cmd/stop.go`: the `stop` command -/

/-- Handler `stopPlayer` of the `stop` command. -/
def stopPlayer (env : Env) (w : World) : World × List Effect :=
  if w.pidFile.isNone then
    (w, [.println "No music player is currently running."])
  else
    match readFile env "playit.pid" w.pidFile with
    | .error e => (w, [.println ("Error reading PID file: " ++ e)])
    | .ok pidData =>
      match atoi pidData with
      | none => (w, [.println ("Error parsing PID: " ++ env.atoiErrText pidData)])
      | some pid =>
        match env.findProcessErr pid with
        | some e => (w, [.println ("Error finding process: " ++ e)])
        | none =>
          match env.signalErr pid with
          | some e => (w, [.sigterm pid, .println ("Error sending SIGTERM: " ++ e)])
          | none =>
            let stopping : List Effect :=
              [.sigterm pid,
               .println ("Stopping music player (PID: " ++ fmtInt pid ++ ")..."),
               .println "The player will stop after the current song finishes."]
            let w1 : World := if env.recordGoneBeforeRemove then { w with pidFile := none } else w
            match removePidFile env w1 with
            | (w2, some e) =>
              (w2, stopping ++ [.println ("Warning: Could not remove PID file: " ++ e),
                                .println "Music player stopped successfully."])
            | (w2, none) =>
              (w2, stopping ++ [.println "Music player stopped successfully."])

/-! ## `cmd/run.go`: the player process -/

/-- The swap closure handed to `rand.Shuffle`:
`Files[i], Files[j] = Files[j], Files[i]`. -/
def swapFiles (files : List String) (i j : Nat) : List String :=
  (files.set i (files.getD j "")).set j (files.getD i "")

/-- Loop of `rand.Shuffle`: for `i` from the given index down to `1`, draw `j` below
`i + 1` and swap positions `i` and `j`. -/
def shuffleLoop (randIntn : Nat → Nat) : Nat → List String → List String
  | 0, files => files
  | i + 1, files =>
    shuffleLoop randIntn i (swapFiles files (i + 1) (randIntn (i + 2) % (i + 2)))

/-- The call `rand.Shuffle(len(playlist.Files), swap)`. -/
def randShuffle (randIntn : Nat → Nat) (files : List String) : List String :=
  shuffleLoop randIntn (files.length - 1) files

/-- The order `playPlaylist` iterates over: the shuffled list when `shuffle` is set,
the playlist's own order otherwise. -/
def workingOrder (env : Env) (playlist : Playlist) (shuffle : Bool) : List String :=
  if shuffle then randShuffle env.randIntn playlist.Files else playlist.Files

/-- Lines 201-226 of `playFile`: what follows the decoder call made as `call`. -/
def playDecoded (filePath : String) (call : Effect) (decoded : Except String Nat) :
    Option String × List Effect :=
  match decoded with
  | .error e => (some e, [.osOpen filePath, call, .fileClose filePath])
  | .ok sampleRate =>
    (none, [.osOpen filePath, call, .speakerPlay filePath (sampleRate != 44100),
            .streamerClose filePath, .fileClose filePath])

/-- Function `playFile`: the returned error (`none` for nil) and the calls made. -/
def playFile (env : Env) (filePath : String) : Option String × List Effect :=
  match env.openErr filePath with
  | some e => (some e, [.osOpen filePath])
  | none =>
    let ext := filepathExt filePath
    if ext = ".mp3" then playDecoded filePath (.mp3Decode filePath) (env.mp3Decode filePath)
    else if ext = ".wav" then playDecoded filePath (.wavDecode filePath) (env.wavDecode filePath)
    else if ext = ".flac" then
      (some "FLAC format not yet supported", [.osOpen filePath, .fileClose filePath])
    else
      (some ("unsupported format: " ++ ext), [.osOpen filePath, .fileClose filePath])

/-- The `for ... range playlist.Files` loop of `playPlaylist`. -/
def playLoop (env : Env) (w : World) : List String → List Effect
  | [] => []
  | fileName :: rest =>
    let filePath := env.filepathJoin "music" fileName
    if w.fileExists filePath = false then playLoop env w rest
    else
      match playFile env filePath with
      | (some _, calls) => .playFile filePath :: calls ++ playLoop env w rest
      | (none, calls) => .playFile filePath :: calls ++ playLoop env w rest

/-- Function `playPlaylist`; the result of `speaker.Init` is discarded by the source. -/
def playPlaylist (env : Env) (w : World) (playlist : Playlist) (shuffle : Bool) :
    List Effect :=
  .speakerInit 44100 4410 env.speakerInitErr.isSome ::
    playLoop env w (workingOrder env playlist shuffle)

/-- Handler `runMusicPlayer` of the hidden `run-music` command, run to its return
without a signal arriving. -/
def runMusicPlayer (env : Env) (shuffleMode : Bool) (w : World) : World × List Effect :=
  if w.playlistFile.isNone then
    (w, [.println "No playlist found."])
  else
    match readFile env "playlist.json" w.playlistFile with
    | .error e => (w, [.println ("Error reading playlist: " ++ e)])
    | .ok data =>
      match env.jsonUnmarshal data with
      | .error e => (w, [.println ("Error parsing playlist: " ++ e)])
      | .ok playlist =>
        if playlist.Files.length = 0 then
          (w, [.println "Playlist is empty."])
        else
          let played := playPlaylist env w playlist shuffleMode
          ((removePidFile env w).1, played ++ [.println "Music player stopped."])

/-! ## `cmd/remove.go`: the `remove` command -/

/-- The `for i, fileName := range playlist.Files` search of `removeSong`: the index of
the first entry equal to the target, counting from the given start. -/
def findName (target : String) : List String → Nat → Option Nat
  | [], _ => none
  | fileName :: rest, i => if fileName = target then some i else findName target rest (i + 1)

/-- Lines 78-90 of `removeSong`: marshal the playlist and write `playlist.json`. -/
def savePlaylist (env : Env) (w : World) (playlist : Playlist) : World × List Effect :=
  match env.jsonMarshalIndent playlist with
  | .error e => (w, [.println ("Error saving playlist: " ++ e)])
  | .ok data =>
    match env.writeErr "playlist.json" with
    | some e => (w, [.println ("Error writing playlist: " ++ e)])
    | none =>
      ({ w with playlistFile := some data },
       [.println ("Playlist updated. " ++ fmtInt playlist.Files.length ++ " songs remaining.")])

/-- Handler `removeSong` of the `remove` command with its one argument. -/
def removeSong (env : Env) (target : String) (w : World) : World × List Effect :=
  if w.playlistFile.isNone then
    (w, [.println "No playlist found. Use 'playit add' to add music files first."])
  else
    match readFile env "playlist.json" w.playlistFile with
    | .error e => (w, [.println ("Error reading playlist: " ++ e)])
    | .ok data =>
      match env.jsonUnmarshal data with
      | .error e => (w, [.println ("Error parsing playlist: " ++ e)])
      | .ok playlist =>
        if playlist.Files.length = 0 then
          (w, [.println "Playlist is empty. Use 'playit add' to add music files."])
        else
          match atoi target with
          | some index =>
            if index < 1 ∨ index > playlist.Files.length then
              (w, [.println ("Invalid index. Please use a number between 1 and "
                      ++ fmtInt playlist.Files.length ++ ".")])
            else
              let removedFile := playlist.Files.getD (index - 1).toNat ""
              let files := playlist.Files.take (index - 1).toNat ++ playlist.Files.drop index.toNat
              let saved := savePlaylist env w { Files := files }
              (saved.1,
               .println ("Removed song " ++ fmtInt index ++ ": " ++ removedFile) :: saved.2)
          | none =>
            match findName target playlist.Files 0 with
            | some i =>
              let files := playlist.Files.take i ++ playlist.Files.drop (i + 1)
              let saved := savePlaylist env w { Files := files }
              (saved.1, .println ("Removed song: " ++ target) :: saved.2)
            | none =>
              (w, [.println ("Song '" ++ target ++ "' not found in playlist."),
                   .println "Use 'playit playlist' to see available songs."])

/-! ## `cmd/add.go`: the add-time filter -/

/-- The function `strings.ToLower` on the ASCII range: the capital letters `A` to `Z`
are mapped to the small ones and every other character is kept.  (The library also
lowers capitals outside ASCII; none of them is lowered to a letter of the three
extensions compared below.) -/
def stringsToLower (s : String) : String :=
  String.mk (s.data.map fun c =>
    if 'A' ≤ c ∧ c ≤ 'Z' then Char.ofNat (c.toNat + 32) else c)

/-- Function `isMusicFile`: the lowered extension is one of the three music ones. -/
def isMusicFile (filePath : String) : Bool :=
  let ext := stringsToLower (filepathExt filePath)
  ext = ".mp3" || ext = ".wav" || ext = ".flac"

/-! ## Reading traces -/

/-- The process-start calls in a trace. -/
def startCalls (t : List Effect) : List (List String) :=
  t.filterMap fun e => match e with
    | .start args => some args
    | _ => none

/-- The process ids a trace sends the termination signal to. -/
def sigtermCalls (t : List Effect) : List Int :=
  t.filterMap fun e => match e with
    | .sigterm pid => some pid
    | _ => none

/-- The paths a trace hands to `playFile`. -/
def playFileCalls (t : List Effect) : List String :=
  t.filterMap fun e => match e with
    | .playFile filePath => some filePath
    | _ => none

/-! ## A concrete environment for the witnesses -/

/-- Splits text at line feeds; the second argument is the current line, reversed. -/
def splitLines : List Char → List Char → List String
  | [], cur => [String.mk cur.reverse]
  | c :: cs, cur =>
    if c = '\n' then String.mk cur.reverse :: splitLines cs []
    else splitLines cs (c :: cur)

/-- A stand-in for the playlist codec: one file name per line. -/
def linesUnmarshal (data : String) : Except String Playlist :=
  if data = "" then .ok { Files := [] } else .ok { Files := splitLines data.data [] }

/-- An environment in which every call succeeds, paths are joined with a slash and
both decoders report the speaker's own sample rate. -/
def calmEnv : Env where
  readErr := fun _ => none
  jsonUnmarshal := linesUnmarshal
  jsonMarshalIndent := fun playlist => .ok (String.intercalate "\n" playlist.Files)
  writeErr := fun _ => none
  startProcess := fun _ => .ok 4242
  findProcessErr := fun _ => none
  signalErr := fun _ => none
  removeErr := fun _ => none
  recordGoneBeforeRemove := false
  atoiErrText := fun _ => "invalid syntax"
  filepathJoin := fun dir name => dir ++ "/" ++ name
  openErr := fun _ => none
  mp3Decode := fun _ => .ok 44100
  wavDecode := fun _ => .ok 44100
  speakerInitErr := none
  randIntn := fun _ => 0

/-- A music directory holding `a.mp3` and `b.wav` only. -/
def demoMusic (path : String) : Bool :=
  path = "music/a.mp3" || path = "music/b.wav"

/-- A running player: DaemonRecord `4242`, playlist `a.mp3`, `b.wav`, `missing.mp3`. -/
def runningWorld : World where
  pidFile := some "4242"
  playlistFile := some "a.mp3\nb.wav\nmissing.mp3"
  fileExists := demoMusic

/-- The same files with no DaemonRecord. -/
def stoppedWorld : World where
  pidFile := none
  playlistFile := some "a.mp3\nb.wav\nmissing.mp3"
  fileExists := demoMusic

/-- No DaemonRecord and a playlist record holding no track. -/
def emptyWorld : World where
  pidFile := none
  playlistFile := some ""
  fileExists := demoMusic

/-- A DaemonRecord `4242` next to a playlist record holding no track. -/
def orphanWorld : World where
  pidFile := some "4242"
  playlistFile := some ""
  fileExists := demoMusic

/-- A DaemonRecord `4242` and no playlist record at all. -/
def bareWorld : World where
  pidFile := some "4242"
  playlistFile := none
  fileExists := demoMusic

/-- The calm environment, except that no signal can be delivered: the recorded
process has already finished. -/
def staleEnv : Env :=
  { calmEnv with signalErr := fun _ => some "os: process already finished" }

/-- The calm environment, except that the speaker fails to initialize. -/
def muteEnv : Env :=
  { calmEnv with speakerInitErr := some "failed to initialize speaker" }

/-- The decoder calls in a trace. -/
def decoderCalls (t : List Effect) : List Effect :=
  t.filter fun e => match e with
    | .mp3Decode _ => true
    | .wavDecode _ => true
    | _ => false

/-- The calls to `speaker.Play` in a trace. -/
def speakerCalls (t : List Effect) : List Effect :=
  t.filter fun e => match e with
    | .speakerPlay _ _ => true
    | _ => false

/-- A playlist record whose only track is named `7`. -/
def numberedWorld : World where
  pidFile := none
  playlistFile := some "7"
  fileExists := demoMusic

/-- A playlist record holding a track named `2` followed by `a.mp3`. -/
def mixedWorld : World where
  pidFile := none
  playlistFile := some "2\na.mp3"
  fileExists := demoMusic

/-- A music directory holding the one file `SONG.MP3`. -/
def shoutMusic (path : String) : Bool :=
  path = "music/SONG.MP3"

/-- No DaemonRecord, the playlist `SONG.MP3` and its file in the music directory. -/
def shoutWorld : World where
  pidFile := none
  playlistFile := some "SONG.MP3"
  fileExists := shoutMusic

/-! ## Theorems -/

/-- C1: whenever `playit.pid` exists, whatever it and the playlist hold, `runMusic`
prints the already-running lines, starts no process and leaves every persisted file
as it was. -/
theorem runMusic_refuses_when_record_exists (env : Env) (shuffleMode : Bool) (w : World)
    (h : w.pidFile.isSome = true) :
    (runMusic env shuffleMode w).1 = w ∧
    (runMusic env shuffleMode w).2 =
      [.println "Music player is already running!",
       .println "Use 'playit status' to check status or 'playit stop' to stop it."] ∧
    startCalls (runMusic env shuffleMode w).2 = [] := by
  simp [runMusic, h, startCalls]

/-- Witness of C1 on a world whose DaemonRecord holds `4242`. -/
theorem runMusic_refuses_when_record_exists_witness :
    (runMusic calmEnv false runningWorld).1 = runningWorld ∧
    (runMusic calmEnv false runningWorld).2 =
      [.println "Music player is already running!",
       .println "Use 'playit status' to check status or 'playit stop' to stop it."] ∧
    startCalls (runMusic calmEnv false runningWorld).2 = [] :=
  runMusic_refuses_when_record_exists calmEnv false runningWorld rfl

/-- C2: whenever `playit.pid` is absent, `stopPlayer` prints the not-running line,
signals no process and leaves every persisted file as it was. -/
theorem stopPlayer_refuses_without_record (env : Env) (w : World)
    (h : w.pidFile = none) :
    (stopPlayer env w).1 = w ∧
    (stopPlayer env w).2 = [.println "No music player is currently running."] ∧
    sigtermCalls (stopPlayer env w).2 = [] := by
  simp [stopPlayer, h, sigtermCalls]

/-- Witness of C2 on a world without DaemonRecord. -/
theorem stopPlayer_refuses_without_record_witness :
    (stopPlayer calmEnv stoppedWorld).1 = stoppedWorld ∧
    (stopPlayer calmEnv stoppedWorld).2 = [.println "No music player is currently running."] ∧
    sigtermCalls (stopPlayer calmEnv stoppedWorld).2 = [] :=
  stopPlayer_refuses_without_record calmEnv stoppedWorld rfl

/-! ### Sequential playback -/

theorem playFileCalls_append (s t : List Effect) :
    playFileCalls (s ++ t) = playFileCalls s ++ playFileCalls t := by
  simp [playFileCalls, List.filterMap_append]

theorem playFileCalls_playDecoded (filePath : String) (call : Effect)
    (decoded : Except String Nat) (hcall : playFileCalls [call] = []) :
    playFileCalls (playDecoded filePath call decoded).2 = [] := by
  cases call <;> cases decoded <;> simp_all [playDecoded, playFileCalls]

theorem playFileCalls_playFile (env : Env) (filePath : String) :
    playFileCalls (playFile env filePath).2 = [] := by
  unfold playFile
  split
  · simp [playFileCalls]
  · dsimp only
    split_ifs
    · exact playFileCalls_playDecoded _ _ _ (by simp [playFileCalls])
    · exact playFileCalls_playDecoded _ _ _ (by simp [playFileCalls])
    · simp [playFileCalls]
    · simp [playFileCalls]

theorem playFileCalls_playLoop (env : Env) (w : World) (files : List String) :
    playFileCalls (playLoop env w files) =
      (files.filter fun name => w.fileExists (env.filepathJoin "music" name)).map
        (env.filepathJoin "music") := by
  induction files with
  | nil => simp [playLoop, playFileCalls]
  | cons name rest ih =>
    unfold playLoop
    by_cases hex : w.fileExists (env.filepathJoin "music" name) = false
    · simp [hex, ih]
    · have hcalls := playFileCalls_playFile env (env.filepathJoin "music" name)
      have htrue : w.fileExists (env.filepathJoin "music" name) = true := by simpa using hex
      rw [if_neg hex]
      split <;> rename_i err calls hplay
      all_goals
        rw [hplay] at hcalls
        have hhead : playFileCalls (Effect.playFile (env.filepathJoin "music" name) ::
            (calls ++ playLoop env w rest)) =
            env.filepathJoin "music" name :: playFileCalls (calls ++ playLoop env w rest) := by
          simp [playFileCalls]
        simp only [List.cons_append, hhead, playFileCalls_append]
        simp only [] at hcalls
        rw [hcalls, ih]
        simp [List.filter_cons, htrue]

/-- C3: with `shuffle = false`, for every playlist, every set of missing files and
every outcome of opening and decoding, `playPlaylist` (a total function: it always
returns) hands to `playFile` exactly the tracks of the playlist whose file under
`music` exists, in playlist order. -/
theorem playPlaylist_plays_existing_tracks_in_order (env : Env) (w : World)
    (P : List String) :
    playFileCalls (playPlaylist env w { Files := P } false) =
      (P.filter fun name => w.fileExists (env.filepathJoin "music" name)).map
        (env.filepathJoin "music") := by
  have hinit : ∀ t : List Effect,
      playFileCalls (Effect.speakerInit 44100 4410 env.speakerInitErr.isSome :: t) =
        playFileCalls t := by
    intro t
    simp [playFileCalls]
  simp only [playPlaylist, workingOrder, hinit]
  exact playFileCalls_playLoop env w P

/-- The scenario of the specification: `a.mp3`, then `b.wav`, `missing.mp3` skipped. -/
theorem playPlaylist_scenario :
    playFileCalls (playPlaylist calmEnv stoppedWorld
      { Files := ["a.mp3", "b.wav", "missing.mp3"] } false) =
      ["music/a.mp3", "music/b.wav"] := by
  decide

/-! ### Shuffled playback -/

theorem count_getElem_le (files : List String) (i : Nat) (hi : i < files.length)
    (a : String) : (if files[i] == a then 1 else 0) ≤ files.count a := by
  by_cases h : files[i] = a
  · simp only [h, beq_self_eq_true, if_true]
    exact List.count_pos_iff.mpr (h ▸ List.getElem_mem hi)
  · simp [h]

theorem swapFiles_perm (files : List String) (i j : Nat) (hi : i < files.length)
    (hj : j < files.length) : (swapFiles files i j).Perm files := by
  have e1 : files.getD j "" = files[j] := by
    simp [List.getD_eq_getElem?_getD, List.getElem?_eq_getElem hj]
  have e2 : files.getD i "" = files[i] := by
    simp [List.getD_eq_getElem?_getD, List.getElem?_eq_getElem hi]
  unfold swapFiles
  rw [e1, e2, List.perm_iff_count]
  intro a
  have hj2 : j < (files.set i files[j]).length := by simpa using hj
  have ci := count_getElem_le files i hi a
  have cj := count_getElem_le files j hj a
  rw [List.count_set _ _ _ _ hj2, List.count_set _ _ _ _ hi, List.getElem_set]
  split_ifs at ci cj ⊢ <;> omega

theorem shuffleLoop_perm (randIntn : Nat → Nat) :
    ∀ (k : Nat) (files : List String), k < files.length ∨ k = 0 →
      (shuffleLoop randIntn k files).Perm files := by
  intro k
  induction k with
  | zero => intro files _; simp [shuffleLoop]
  | succ i ih =>
    intro files hk
    have hi : i + 1 < files.length := by omega
    have hj : randIntn (i + 2) % (i + 2) < files.length :=
      lt_of_lt_of_le (Nat.mod_lt _ (by omega)) (by omega)
    have hswap := swapFiles_perm files (i + 1) (randIntn (i + 2) % (i + 2)) hi hj
    unfold shuffleLoop
    refine (ih _ ?_).trans hswap
    left
    rw [hswap.length_eq]
    omega

theorem removePidFile_playlistFile (env : Env) (w : World) :
    (removePidFile env w).1.playlistFile = w.playlistFile := by
  unfold removePidFile
  split
  · rfl
  · split <;> rfl

/-- C4: with `shuffle = true`, for every playlist and every sequence of draws of the
random source, the order `playPlaylist` iterates over is a permutation of the
playlist, and a player run leaves the persisted playlist record as it found it. -/
theorem shuffle_permutes_and_keeps_record (env : Env) (P : List String) (w : World) :
    (workingOrder env { Files := P } true).Perm P ∧
    (runMusicPlayer env true w).1.playlistFile = w.playlistFile := by
  constructor
  · simp only [workingOrder, if_true, randShuffle]
    apply shuffleLoop_perm
    omega
  · unfold runMusicPlayer
    split_ifs
    · rfl
    · split
      · rfl
      · split
        · rfl
        · split_ifs
          · rfl
          · exact removePidFile_playlistFile env w

/-! ### The player's exit -/

/-- C5: evaluation of `runMusicPlayer` where the claim fails.  With a DaemonRecord
present and a playlist record that holds no track, or no playlist record, the handler
returns before its deferred clean-up is registered and the DaemonRecord is still there;
on the same DaemonRecord with a playlist of three tracks the record is removed. -/
theorem runMusicPlayer_early_return_keeps_record :
    (runMusicPlayer calmEnv false orphanWorld).2 = [.println "Playlist is empty."] ∧
    (runMusicPlayer calmEnv false orphanWorld).1.pidFile = some "4242" ∧
    (runMusicPlayer calmEnv false bareWorld).2 = [.println "No playlist found."] ∧
    (runMusicPlayer calmEnv false bareWorld).1.pidFile = some "4242" ∧
    (runMusicPlayer calmEnv false runningWorld).1.pidFile = none := by
  decide

/-! ### Refusals of `run` -/

/-- C7: with no DaemonRecord and a playlist record that is absent or holds no track,
`runMusic` prints one refusal line (the playlist-empty line when the record is read and
holds no track), starts no process, writes no DaemonRecord and changes no file. -/
theorem runMusic_refuses_without_tracks (env : Env) (shuffleMode : Bool) (w : World)
    (hpid : w.pidFile = none)
    (hpl : w.playlistFile = none ∨
      ∃ data playlist, w.playlistFile = some data ∧
        env.jsonUnmarshal data = .ok playlist ∧ playlist.Files = []) :
    startCalls (runMusic env shuffleMode w).2 = [] ∧
    (runMusic env shuffleMode w).1.pidFile = none ∧
    (runMusic env shuffleMode w).1 = w ∧
    (∃ line, (runMusic env shuffleMode w).2 = [.println line]) ∧
    (w.playlistFile = none → (runMusic env shuffleMode w).2 =
      [.println "No playlist found. Use 'playit add' to add music files first."]) ∧
    (w.playlistFile ≠ none → env.readErr "playlist.json" = none →
      (runMusic env shuffleMode w).2 =
        [.println "Playlist is empty. Use 'playit add' to add music files."]) := by
  rcases hpl with hnone | ⟨data, playlist, hdata, hdec, hfiles⟩
  · simp [runMusic, hpid, hnone, startCalls]
  · cases hread : env.readErr "playlist.json" with
    | none => simp [runMusic, hpid, hdata, readFile, hread, hdec, hfiles, startCalls]
    | some e => simp [runMusic, hpid, hdata, readFile, hread, startCalls]

/-- Witness of C7 on a world whose playlist record holds no track. -/
theorem runMusic_refuses_without_tracks_witness :
    startCalls (runMusic calmEnv true emptyWorld).2 = [] ∧
    (runMusic calmEnv true emptyWorld).1.pidFile = none ∧
    (runMusic calmEnv true emptyWorld).1 = emptyWorld ∧
    (∃ line, (runMusic calmEnv true emptyWorld).2 = [.println line]) ∧
    (emptyWorld.playlistFile = none → (runMusic calmEnv true emptyWorld).2 =
      [.println "No playlist found. Use 'playit add' to add music files first."]) ∧
    (emptyWorld.playlistFile ≠ none → calmEnv.readErr "playlist.json" = none →
      (runMusic calmEnv true emptyWorld).2 =
        [.println "Playlist is empty. Use 'playit add' to add music files."]) :=
  runMusic_refuses_without_tracks calmEnv true emptyWorld rfl
    (Or.inr ⟨"", { Files := [] }, rfl, rfl, rfl⟩)

/-! ### Speaker initialization -/

/-- C8, as stated, fails: the speaker does not initialize, and `playPlaylist` still
hands the track `a.mp3` to `playFile`. -/
theorem playPlaylist_plays_after_failed_init :
    muteEnv.speakerInitErr = some "failed to initialize speaker" ∧
    Effect.speakerInit 44100 4410 true ∈
      playPlaylist muteEnv stoppedWorld { Files := ["a.mp3"] } false ∧
    playFileCalls (playPlaylist muteEnv stoppedWorld { Files := ["a.mp3"] } false) =
      ["music/a.mp3"] := by
  decide

/-- C8, amended: when `speaker.Init` fails, `playPlaylist` records the failed call and
nothing else changes: it hands to `playFile` every track of the working order whose
file under `music` exists, in order. -/
theorem playPlaylist_ignores_failed_init (env : Env) (w : World) (playlist : Playlist)
    (shuffle : Bool) (e : String) (hfail : env.speakerInitErr = some e) :
    (playPlaylist env w playlist shuffle).head? = some (.speakerInit 44100 4410 true) ∧
    playFileCalls (playPlaylist env w playlist shuffle) =
      ((workingOrder env playlist shuffle).filter fun name =>
        w.fileExists (env.filepathJoin "music" name)).map (env.filepathJoin "music") := by
  constructor
  · simp [playPlaylist, hfail]
  · have hinit : ∀ t : List Effect,
        playFileCalls (Effect.speakerInit 44100 4410 env.speakerInitErr.isSome :: t) =
          playFileCalls t := by
      intro t
      simp [playFileCalls]
    simp only [playPlaylist, hinit]
    exact playFileCalls_playLoop env w _

/-- Witness of amended C8 on the playlist of the running world. -/
theorem playPlaylist_ignores_failed_init_witness :
    (playPlaylist muteEnv stoppedWorld { Files := ["a.mp3", "b.wav"] } false).head? =
      some (.speakerInit 44100 4410 true) ∧
    playFileCalls (playPlaylist muteEnv stoppedWorld { Files := ["a.mp3", "b.wav"] } false) =
      ((workingOrder muteEnv { Files := ["a.mp3", "b.wav"] } false).filter fun name =>
        stoppedWorld.fileExists (muteEnv.filepathJoin "music" name)).map
          (muteEnv.filepathJoin "music") :=
  playPlaylist_ignores_failed_init muteEnv stoppedWorld { Files := ["a.mp3", "b.wav"] } false
    "failed to initialize speaker" rfl

/-! ### Dispatch on the extension -/

/-- C9: for a path that `os.Open` opens, `playFile` dispatches on `filepath.Ext`:
`.mp3` calls the mp3 decoder and no other, `.wav` calls the wav decoder and no other,
`.flac` and every other extension return an unsupported-format error after opening and
closing the file, with no decoder and no speaker call. -/
theorem playFile_dispatches_on_extension (env : Env) (filePath : String)
    (hopen : env.openErr filePath = none) :
    (filepathExt filePath = ".mp3" →
      decoderCalls (playFile env filePath).2 = [.mp3Decode filePath]) ∧
    (filepathExt filePath = ".wav" →
      decoderCalls (playFile env filePath).2 = [.wavDecode filePath]) ∧
    (filepathExt filePath = ".flac" →
      playFile env filePath =
        (some "FLAC format not yet supported", [.osOpen filePath, .fileClose filePath])) ∧
    (filepathExt filePath ≠ ".mp3" → filepathExt filePath ≠ ".wav" →
      filepathExt filePath ≠ ".flac" →
      playFile env filePath =
        (some ("unsupported format: " ++ filepathExt filePath),
         [.osOpen filePath, .fileClose filePath])) ∧
    (filepathExt filePath ≠ ".mp3" → filepathExt filePath ≠ ".wav" →
      decoderCalls (playFile env filePath).2 = [] ∧
      speakerCalls (playFile env filePath).2 = []) := by
  refine ⟨?_, ?_, ?_, ?_, ?_⟩
  · intro h
    cases hdec : env.mp3Decode filePath <;>
      simp [playFile, hopen, h, playDecoded, hdec, decoderCalls]
  · intro h
    cases hdec : env.wavDecode filePath <;>
      simp [playFile, hopen, h, playDecoded, hdec, decoderCalls]
  · intro h
    simp [playFile, hopen, h]
  · intro h1 h2 h3
    simp [playFile, hopen, h1, h2, h3]
  · intro h1 h2
    by_cases h3 : filepathExt filePath = ".flac" <;>
      simp [playFile, hopen, h1, h2, h3, decoderCalls, speakerCalls]

/-- Witness of C9 on a path with the declared unsupported extension. -/
theorem playFile_dispatches_on_extension_witness :
    (filepathExt "music/song.flac" = ".mp3" →
      decoderCalls (playFile calmEnv "music/song.flac").2 = [.mp3Decode "music/song.flac"]) ∧
    (filepathExt "music/song.flac" = ".wav" →
      decoderCalls (playFile calmEnv "music/song.flac").2 = [.wavDecode "music/song.flac"]) ∧
    (filepathExt "music/song.flac" = ".flac" →
      playFile calmEnv "music/song.flac" =
        (some "FLAC format not yet supported",
         [.osOpen "music/song.flac", .fileClose "music/song.flac"])) ∧
    (filepathExt "music/song.flac" ≠ ".mp3" → filepathExt "music/song.flac" ≠ ".wav" →
      filepathExt "music/song.flac" ≠ ".flac" →
      playFile calmEnv "music/song.flac" =
        (some ("unsupported format: " ++ filepathExt "music/song.flac"),
         [.osOpen "music/song.flac", .fileClose "music/song.flac"])) ∧
    (filepathExt "music/song.flac" ≠ ".mp3" → filepathExt "music/song.flac" ≠ ".wav" →
      decoderCalls (playFile calmEnv "music/song.flac").2 = [] ∧
      speakerCalls (playFile calmEnv "music/song.flac").2 = []) :=
  playFile_dispatches_on_extension calmEnv "music/song.flac" rfl

/-- Each branch of the dispatch on a concrete path. -/
theorem playFile_dispatch_examples :
    (playFile calmEnv "music/a.mp3").2 =
      [.osOpen "music/a.mp3", .mp3Decode "music/a.mp3", .speakerPlay "music/a.mp3" false,
       .streamerClose "music/a.mp3", .fileClose "music/a.mp3"] ∧
    decoderCalls (playFile calmEnv "music/b.wav").2 = [.wavDecode "music/b.wav"] ∧
    (playFile calmEnv "music/c.flac").1 = some "FLAC format not yet supported" ∧
    (playFile calmEnv "music/d.ogg").1 = some "unsupported format: .ogg" ∧
    (playFile calmEnv "music.d/readme").1 = some "unsupported format: " := by
  decide

/-! ### The DaemonRecord written by `run` and read by `stop` -/

theorem digitChar_spec : ∀ m, m < 10 →
    ('0' ≤ Nat.digitChar m ∧ Nat.digitChar m ≤ '9') ∧
      (Nat.digitChar m).toNat - '0'.toNat = m := by
  decide

theorem parseDigits_append (xs ys : List Char) (acc : Nat) :
    parseDigits (xs ++ ys) acc = (parseDigits xs acc).bind (parseDigits ys) := by
  induction xs generalizing acc with
  | nil => simp [parseDigits]
  | cons c cs ih =>
    simp only [List.cons_append, parseDigits]
    split_ifs
    · exact ih _
    · rfl

theorem parseDigits_digitChar (m acc : Nat) (hm : m < 10) :
    parseDigits [Nat.digitChar m] acc = some (acc * 10 + m) := by
  obtain ⟨hd, hv⟩ := digitChar_spec m hm
  simp only [parseDigits, hd, and_self, if_true, hv]

theorem toDigitsCore_append (fuel : Nat) : ∀ (n : Nat) (ds : List Char),
    Nat.toDigitsCore 10 fuel n ds = Nat.toDigitsCore 10 fuel n [] ++ ds := by
  induction fuel with
  | zero => intro n ds; simp [Nat.toDigitsCore]
  | succ f ih =>
    intro n ds
    simp only [Nat.toDigitsCore]
    split_ifs
    · simp
    · rw [ih (n / 10) (Nat.digitChar (n % 10) :: ds), ih (n / 10) [Nat.digitChar (n % 10)]]
      simp

theorem toDigitsCore_ne_nil (fuel n : Nat) : Nat.toDigitsCore 10 (fuel + 1) n [] ≠ [] := by
  simp only [Nat.toDigitsCore]
  split_ifs
  · simp
  · rw [toDigitsCore_append]
    simp

theorem parseDigits_toDigitsCore (fuel : Nat) : ∀ n, n < fuel →
    parseDigits (Nat.toDigitsCore 10 fuel n []) 0 = some n := by
  induction fuel with
  | zero => intro n hn; omega
  | succ f ih =>
    intro n hn
    simp only [Nat.toDigitsCore]
    have hmod : n % 10 < 10 := Nat.mod_lt _ (by decide)
    split_ifs with h0
    · rw [parseDigits_digitChar _ _ hmod]
      congr 1
      omega
    · rw [toDigitsCore_append, parseDigits_append, ih (n / 10) (by omega)]
      simp only [Option.bind]
      rw [parseDigits_digitChar _ _ hmod]
      congr 1
      omega

theorem parseDigits_toDigits (n : Nat) : parseDigits (Nat.toDigits 10 n) 0 = some n :=
  parseDigits_toDigitsCore (n + 1) n (Nat.lt_succ_self n)

theorem toDigits_ne_nil (n : Nat) : Nat.toDigits 10 n ≠ [] :=
  toDigitsCore_ne_nil n n

theorem parseDigits_head (c : Char) (cs : List Char) (acc v : Nat)
    (h : parseDigits (c :: cs) acc = some v) : c ≠ '-' ∧ c ≠ '+' := by
  simp only [parseDigits] at h
  split_ifs at h with hc
  constructor
  · rintro rfl
    exact absurd hc.1 (by decide)
  · rintro rfl
    exact absurd hc.1 (by decide)

theorem atoi_unsigned (l : List Char) (n : Nat) (hne : l ≠ [])
    (hp : parseDigits l 0 = some n) (hn : n < 2 ^ 63) :
    atoi (String.mk l) = some (n : Int) := by
  cases l with
  | nil => exact absurd rfl hne
  | cons c cs =>
    obtain ⟨h1, h2⟩ := parseDigits_head c cs 0 n hp
    have hn2 : n < 9223372036854775808 := by norm_num at hn; exact hn
    simp [atoi, h1, h2, hp, hn2]

theorem atoi_negative (l : List Char) (n : Nat) (hne : l ≠ [])
    (hp : parseDigits l 0 = some n) (hn : n ≤ 2 ^ 63) :
    atoi (String.mk ('-' :: l)) = some (-(n : Int)) := by
  have hn2 : n ≤ 9223372036854775808 := by norm_num at hn; exact hn
  simp [atoi, hne, hp, hn2]

theorem atoi_fmtInt (pid : Int) (hlo : -(2 : Int) ^ 63 ≤ pid) (hhi : pid < (2 : Int) ^ 63) :
    atoi (fmtInt pid) = some pid := by
  unfold fmtInt
  split_ifs with hneg
  · have h := atoi_negative _ _ (toDigits_ne_nil pid.natAbs) (parseDigits_toDigits pid.natAbs)
      (by omega)
    rw [h]
    congr 1
    omega
  · have h := atoi_unsigned _ _ (toDigits_ne_nil pid.toNat) (parseDigits_toDigits pid.toNat)
      (by omega)
    rw [h]
    congr 1
    omega

/-- Inputs `strconv.Atoi` accepts and rejects. -/
theorem atoi_examples :
    atoi "4242" = some 4242 ∧ atoi "+7" = some 7 ∧ atoi "-0" = some 0 ∧
    atoi "007" = some 7 ∧
    atoi "-9223372036854775808" = some (-9223372036854775808) ∧
    atoi "9223372036854775808" = none ∧ atoi "" = none ∧ atoi "-" = none ∧
    atoi "12a" = none ∧ atoi "4242\n" = none ∧ atoi "a.mp3" = none := by
  decide

/-- Whenever `runMusic` changes the DaemonRecord, it has started the child and the
record holds the decimal text of the child's process id. -/
theorem runMusic_writes_decimal_pid (env : Env) (shuffleMode : Bool) (w : World) :
    (runMusic env shuffleMode w).1 = w ∨
    ∃ child : Int,
      env.startProcess (if shuffleMode then ["run-music", "--shuffle"] else ["run-music"]) =
        .ok child ∧
      (runMusic env shuffleMode w).1.pidFile = some (fmtInt child) := by
  cases shuffleMode <;>
  · unfold runMusic
    by_cases h1 : w.pidFile.isSome = true
    · simp [h1]
    · by_cases h2 : w.playlistFile.isNone = true
      · simp [h1, h2]
      · cases hr : readFile env "playlist.json" w.playlistFile with
        | error e => simp [h1, h2]
        | ok data =>
          cases hu : env.jsonUnmarshal data with
          | error e => simp [h1, h2, hu]
          | ok playlist =>
            by_cases h3 : playlist.Files.length = 0
            · simp [h1, h2, hu, h3]
            · cases hs : env.startProcess ["run-music"] <;>
                cases hs2 : env.startProcess ["run-music", "--shuffle"] <;>
                  cases hw : env.writeErr "playit.pid" <;>
                    simp [h1, h2, hu, h3, hs, hs2, hw]

/-- C6, as stated, fails: the DaemonRecord holds the text `run` writes for process
`4242`, the process has already finished, and after `stopPlayer` the record is still
there. -/
theorem stopPlayer_stale_record_stays :
    runningWorld.pidFile = some (fmtInt 4242) ∧
    staleEnv.signalErr 4242 = some "os: process already finished" ∧
    (stopPlayer staleEnv runningWorld).2 =
      [.sigterm 4242, .println "Error sending SIGTERM: os: process already finished"] ∧
    ¬ ((stopPlayer staleEnv runningWorld).1.pidFile = none) := by
  decide

/-- C6, amended: when the DaemonRecord holds the decimal text `run` writes for a
process id, and reading the record, finding the process and delivering the signal
succeed, `stopPlayer` signals exactly that process (the text parses back to the id);
the record is gone afterwards whenever it was already deleted or its removal succeeds;
and whatever the removal returns, the handler ends with its success line. -/
theorem stopPlayer_signals_recorded_pid (env : Env) (w : World) (pid : Int)
    (hlo : -(2 : Int) ^ 63 ≤ pid) (hhi : pid < (2 : Int) ^ 63)
    (hrec : w.pidFile = some (fmtInt pid))
    (hread : env.readErr "playit.pid" = none)
    (hfind : env.findProcessErr pid = none)
    (hsig : env.signalErr pid = none) :
    atoi (fmtInt pid) = some pid ∧
    sigtermCalls (stopPlayer env w).2 = [pid] ∧
    (env.recordGoneBeforeRemove = true ∨ env.removeErr "playit.pid" = none →
      (stopPlayer env w).1.pidFile = none) ∧
    (stopPlayer env w).2.getLast? = some (.println "Music player stopped successfully.") := by
  have hparse := atoi_fmtInt pid hlo hhi
  refine ⟨hparse, ?_, ?_, ?_⟩
  all_goals
    cases hgone : env.recordGoneBeforeRemove <;>
      cases hrem : env.removeErr "playit.pid" <;>
        simp [stopPlayer, hrec, readFile, hread, hparse, hfind, hsig, removePidFile, hgone,
          hrem, sigtermCalls]

/-- Witness of amended C6 on the running world and the calm environment. -/
theorem stopPlayer_signals_recorded_pid_witness :
    atoi (fmtInt 4242) = some 4242 ∧
    sigtermCalls (stopPlayer calmEnv runningWorld).2 = [4242] ∧
    (calmEnv.recordGoneBeforeRemove = true ∨ calmEnv.removeErr "playit.pid" = none →
      (stopPlayer calmEnv runningWorld).1.pidFile = none) ∧
    (stopPlayer calmEnv runningWorld).2.getLast? =
      some (.println "Music player stopped successfully.") :=
  stopPlayer_signals_recorded_pid calmEnv runningWorld 4242 (by decide) (by decide)
    (by decide) rfl rfl rfl

/-- The record found already deleted: a warning, then the success line. -/
theorem stopPlayer_record_already_gone :
    (stopPlayer { calmEnv with recordGoneBeforeRemove := true } runningWorld).2 =
      [.sigterm 4242,
       .println "Stopping music player (PID: 4242)...",
       .println "The player will stop after the current song finishes.",
       .println "Warning: Could not remove PID file: remove playit.pid: no such file or directory",
       .println "Music player stopped successfully."] ∧
    (stopPlayer { calmEnv with recordGoneBeforeRemove := true } runningWorld).1.pidFile =
      none := by
  decide

/-! ### Removal from the playlist -/

theorem findName_none (target : String) : ∀ (files : List String) (start : Nat),
    findName target files start = none ↔ target ∉ files := by
  intro files
  induction files with
  | nil => intro start; simp [findName]
  | cons name rest ih =>
    intro start
    simp only [findName]
    split_ifs with h
    · simp [h]
    · rw [ih (start + 1)]
      simp [Ne.symm h]

theorem findName_some (target : String) : ∀ (files : List String) (start k : Nat),
    findName target files start = some k →
      ∃ m, k = start + m ∧ files.take m ++ files.drop (m + 1) = files.erase target := by
  intro files
  induction files with
  | nil => intro start k h; simp [findName] at h
  | cons name rest ih =>
    intro start k h
    simp only [findName] at h
    split_ifs at h with hname
    · refine ⟨0, ?_, ?_⟩
      · simp at h
        omega
      · subst hname
        simp
    · obtain ⟨m, hk, hm⟩ := ih (start + 1) k h
      refine ⟨m + 1, by omega, ?_⟩
      have hbeq : ¬ (name == target) = true := by simpa using hname
      rw [List.erase_cons_tail hbeq, ← hm]
      simp

/-- C10, as stated, fails: the playlist holds one track named `7`; `remove 7` reads the
target as index 7, refuses it and leaves the playlist as it was.  With tracks `2` and
`a.mp3`, `remove 2` deletes `a.mp3`, not the first occurrence of the name `2`. -/
theorem removeSong_numeric_name_is_an_index :
    calmEnv.jsonUnmarshal "7" = .ok { Files := ["7"] } ∧
    "7" ∈ ["7"] ∧
    (removeSong calmEnv "7" numberedWorld).1.playlistFile = some "7" ∧
    (removeSong calmEnv "7" numberedWorld).2 =
      [.println "Invalid index. Please use a number between 1 and 1."] ∧
    calmEnv.jsonUnmarshal "2\na.mp3" = .ok { Files := ["2", "a.mp3"] } ∧
    (removeSong calmEnv "2" mixedWorld).1.playlistFile = some "2" := by
  refine ⟨rfl, by decide, by decide, by decide, rfl, by decide⟩

/-- C10, amended: on a non-empty playlist `P`, a target that `strconv.Atoi` reads as
an integer `i` with `1 ≤ i ≤ len P` makes `removeSong` save `P` without the element at
position `i`; a target that is not an integer and occurs in `P` makes it save `P`
without the first occurrence of that name (saving means marshalling and writing
succeed); an integer outside `1..len P`, or a non-integer absent from `P`, leaves every
persisted file unchanged. -/
theorem removeSong_deletes_exactly_one (env : Env) (target : String) (w : World)
    (data : String) (P : List String)
    (hfile : w.playlistFile = some data)
    (hread : env.readErr "playlist.json" = none)
    (hdec : env.jsonUnmarshal data = .ok { Files := P })
    (hne : P ≠ []) :
    (∀ i : Int, atoi target = some i → 1 ≤ i → i ≤ (P.length : Int) →
      ∀ out, env.jsonMarshalIndent { Files := P.eraseIdx (i - 1).toNat } = .ok out →
        env.writeErr "playlist.json" = none →
        (removeSong env target w).1.playlistFile = some out) ∧
    (atoi target = none → target ∈ P →
      ∀ out, env.jsonMarshalIndent { Files := P.erase target } = .ok out →
        env.writeErr "playlist.json" = none →
        (removeSong env target w).1.playlistFile = some out) ∧
    (∀ i : Int, atoi target = some i → (i < 1 ∨ (P.length : Int) < i) →
      (removeSong env target w).1 = w) ∧
    (atoi target = none → target ∉ P → (removeSong env target w).1 = w) := by
  have hlen : P.length ≠ 0 := by
    intro h
    exact hne (List.length_eq_zero.mp h)
  refine ⟨?_, ?_, ?_, ?_⟩
  · intro i hi h1 h2 out hout hwrite
    have hidx : ¬ (i < 1 ∨ i > (P.length : Int)) := by omega
    have hsucc : i.toNat = (i - 1).toNat + 1 := by omega
    have hfiles : P.take (i - 1).toNat ++ P.drop i.toNat = P.eraseIdx (i - 1).toNat := by
      rw [hsucc, List.eraseIdx_eq_take_drop_succ]
    simp only [removeSong, hfile, readFile, hread, hdec, hi, hfiles, savePlaylist, hout,
      hwrite]
    simp [hlen, hidx]
  · intro hnone hmem out hout hwrite
    cases hfind : findName target P 0 with
    | none => exact absurd hmem ((findName_none target P 0).mp hfind)
    | some k =>
      obtain ⟨m, hk, hm⟩ := findName_some target P 0 k hfind
      have hkm : k = m := by omega
      subst hkm
      simp only [removeSong, hfile, readFile, hread, hdec, hnone, hfind, hm, savePlaylist,
        hout, hwrite]
      simp [hlen]
  · intro i hi hout
    have hidx : i < 1 ∨ i > (P.length : Int) := by omega
    simp only [removeSong, hfile, readFile, hread, hdec, hi]
    simp [hlen, hidx]
  · intro hnone hmem
    have hfind := (findName_none target P 0).mpr hmem
    simp only [removeSong, hfile, readFile, hread, hdec, hnone, hfind]
    simp [hlen]

/-- Witness of amended C10: `remove 2` on the playlist `a.mp3`, `b.wav`, `missing.mp3`. -/
theorem removeSong_deletes_exactly_one_witness :
    (∀ i : Int, atoi "2" = some i → 1 ≤ i →
      i ≤ ((["a.mp3", "b.wav", "missing.mp3"] : List String).length : Int) →
      ∀ out, calmEnv.jsonMarshalIndent
          { Files := (["a.mp3", "b.wav", "missing.mp3"] : List String).eraseIdx (i - 1).toNat } =
          .ok out →
        calmEnv.writeErr "playlist.json" = none →
        (removeSong calmEnv "2" stoppedWorld).1.playlistFile = some out) ∧
    (atoi "2" = none → "2" ∈ (["a.mp3", "b.wav", "missing.mp3"] : List String) →
      ∀ out, calmEnv.jsonMarshalIndent
          { Files := (["a.mp3", "b.wav", "missing.mp3"] : List String).erase "2" } = .ok out →
        calmEnv.writeErr "playlist.json" = none →
        (removeSong calmEnv "2" stoppedWorld).1.playlistFile = some out) ∧
    (∀ i : Int, atoi "2" = some i →
      (i < 1 ∨ ((["a.mp3", "b.wav", "missing.mp3"] : List String).length : Int) < i) →
      (removeSong calmEnv "2" stoppedWorld).1 = stoppedWorld) ∧
    (atoi "2" = none → "2" ∉ (["a.mp3", "b.wav", "missing.mp3"] : List String) →
      (removeSong calmEnv "2" stoppedWorld).1 = stoppedWorld) :=
  removeSong_deletes_exactly_one calmEnv "2" stoppedWorld "a.mp3\nb.wav\nmissing.mp3"
    ["a.mp3", "b.wav", "missing.mp3"] rfl rfl rfl (by decide)

/-- Removal by index and by name on the demo playlist. -/
theorem removeSong_examples :
    (removeSong calmEnv "2" stoppedWorld).1.playlistFile = some "a.mp3\nmissing.mp3" ∧
    (removeSong calmEnv "b.wav" stoppedWorld).1.playlistFile = some "a.mp3\nmissing.mp3" ∧
    (removeSong calmEnv "4" stoppedWorld).1.playlistFile = stoppedWorld.playlistFile ∧
    (removeSong calmEnv "c.wav" stoppedWorld).1.playlistFile = stoppedWorld.playlistFile := by
  decide

/-! ### The add-time filter against the play-time dispatch -/

/-- On a path whose extension is already in small letters the filter and the dispatch
agree: an accepted path has one of the three extensions the switch names. -/
theorem isMusicFile_small_ext_named_case (filePath : String)
    (haccept : isMusicFile filePath = true)
    (hsmall : stringsToLower (filepathExt filePath) = filepathExt filePath) :
    filepathExt filePath = ".mp3" ∨ filepathExt filePath = ".wav" ∨
      filepathExt filePath = ".flac" := by
  simp only [isMusicFile, hsmall, Bool.or_eq_true, decide_eq_true_eq] at haccept
  tauto

/-- Every path the switch handles in a named case is accepted by the filter. -/
theorem named_case_isMusicFile (filePath : String)
    (hnamed : filepathExt filePath = ".mp3" ∨ filepathExt filePath = ".wav" ∨
      filepathExt filePath = ".flac") :
    isMusicFile filePath = true := by
  rcases hnamed with h | h | h <;> simp only [isMusicFile, h] <;> decide

/-- C11: evaluation of the filter and the dispatch where the claim fails.  The name
`SONG.MP3` is accepted by `isMusicFile`, whose comparison lowers the extension, while
the switch of `playFile` compares the extension `.MP3` as it is and takes its default
branch, for the name and for its path under `music`: a run over the playlist
`SONG.MP3` opens and closes the file and calls neither a decoder nor the speaker.  The
name `song.mp3` is accepted and decoded. -/
theorem isMusicFile_accepts_what_playFile_rejects :
    isMusicFile "SONG.MP3" = true ∧
    filepathExt "SONG.MP3" = ".MP3" ∧
    playFile calmEnv "SONG.MP3" =
      (some "unsupported format: .MP3", [.osOpen "SONG.MP3", .fileClose "SONG.MP3"]) ∧
    isMusicFile "music/SONG.MP3" = true ∧
    playFile calmEnv "music/SONG.MP3" =
      (some "unsupported format: .MP3",
       [.osOpen "music/SONG.MP3", .fileClose "music/SONG.MP3"]) ∧
    playPlaylist calmEnv shoutWorld { Files := ["SONG.MP3"] } false =
      [.speakerInit 44100 4410 false, .playFile "music/SONG.MP3",
       .osOpen "music/SONG.MP3", .fileClose "music/SONG.MP3"] ∧
    isMusicFile "song.mp3" = true ∧
    decoderCalls (playFile calmEnv "music/song.mp3").2 = [.mp3Decode "music/song.mp3"] := by
  decide

end Playit
